import Mathlib

set_option maxRecDepth 10000
set_option allowUnsafeReducibility true

attribute [local semireducible] Rat.add Rat.mul Rat.sub Rat.neg Rat.inv Rat.div

/-! Verification of the ThickLine add-in geometric core and settings codec,
as a shallow embedding of ThickLine.cpp.

Modelling conventions:
* C++ `double` values are modelled exactly: the validator, the shape
  generator and the settings codec are stated over an arbitrary linear
  ordered field (instantiated at the rationals for concrete evaluation),
  and the parameter derivation, which takes a square root, over the real
  numbers.  Floating point rounding is not modelled; the numeric literals
  1e-12, 1e-9, 0.5 of the source are taken at their exact values.
* C++ `std::string` text processed by the settings codec is modelled as
  `List Char`; the terminator type fields of the geometric records keep
  the Lean `String` type.
* Host-side collaborators (the Fusion UI, sketch objects, file system)
  are outside the embedded core: derivation starts from the two plane
  points and the raw scalar and type inputs, the codec maps a settings
  record to and from the text of the settings file. -/

/-- Plane vector in sketch space, source struct `V2`. -/
structure V2 (K : Type) where
  x : K
  y : K
deriving DecidableEq

variable {K : Type} [LinearOrderedField K]

/-- Source `vadd`. -/
def vadd (a b : V2 K) : V2 K := ⟨a.x + b.x, a.y + b.y⟩

/-- Source `vsub`. -/
def vsub (a b : V2 K) : V2 K := ⟨a.x - b.x, a.y - b.y⟩

/-- Source `vscale`. -/
def vscale (a : V2 K) (s : K) : V2 K := ⟨a.x * s, a.y * s⟩

/-- Source `vdot`. -/
def vdot (a b : V2 K) : K := a.x * b.x + a.y * b.y

/-- Source `vperp_ccw`, the 90 degree counter-clockwise perpendicular. -/
def vperp_ccw (a : V2 K) : V2 K := ⟨-a.y, a.x⟩

/-- Source `vlen`; the square root forces the real field here. -/
noncomputable def vlen (a : V2 ℝ) : ℝ := Real.sqrt (a.x * a.x + a.y * a.y)

/-- Source constant `kEpsCoincident = 1e-12`. -/
def kEpsCoincident (K : Type) [LinearOrderedField K] : K := 1 / 10 ^ 12

/-- Source constant `kEpsSketchLen = 1e-9`. -/
def kEpsSketchLen (K : Type) [LinearOrderedField K] : K := 1 / 10 ^ 9

/-- Source struct `ThickLineParams` (the host-only `sketch` pointer is
dropped; everything else is kept, raw fields and derived fields). -/
structure ThickLineParams (K : Type) where
  A : V2 K
  B : V2 K
  widthCm : K
  leadACm : K
  leadBCm : K
  featAType : String
  featAWCm : K
  featALCm : K
  featBType : String
  featBWCm : K
  featBLCm : K
  L : K
  Ldir : V2 K
  Wdir : V2 K
  Aext : V2 K
  Bext : V2 K
  Abase : V2 K
  Bbase : V2 K
deriving DecidableEq

/-- Source `validateParams`.  The C++ function returns `bool` and writes
the reason into an out-parameter; this is modelled as `Option String`,
`none` for a valid record and `some msg` for the first failing check. -/
def validateParams (P : ThickLineParams K) : Option String :=
  if P.widthCm ≤ 0 then
    some "Width of line must be > 0."
  else if P.L ≤ kEpsCoincident K then
    some "Points A and B are coincident or too close together."
  else if P.featAType ≠ "None" ∧ P.featAWCm < P.widthCm then
    some "Feature A width must be >= line width."
  else if P.featAType ≠ "None" ∧ P.featALCm ≤ 0 then
    some "Feature A length must be > 0."
  else if P.featBType ≠ "None" ∧ P.featBWCm < P.widthCm then
    some "Feature B width must be >= line width."
  else if P.featBType ≠ "None" ∧ P.featBLCm ≤ 0 then
    some "Feature B length must be > 0."
  else if vdot (vsub P.Bbase P.Abase) P.Ldir ≤ kEpsSketchLen K then
    some "Leads and/or feature lengths consume the segment. Reduce leads/features or move A and B further apart."
  else
    none

/-- Raw numeric and type inputs read from the command dialog by
`extractParams` (the widths and lengths before the force-to-zero step). -/
structure RawInputs where
  widthCm : ℝ
  leadACm : ℝ
  leadBCm : ℝ
  featAType : String
  featBType : String
  featAWIn : ℝ
  featALIn : ℝ
  featBWIn : ℝ
  featBLIn : ℝ

/-- Source `extractParams`, from the point where the two plane points and
the raw inputs are in hand (sketch lookup and selection handling are
host-side and precede the embedded part).  Feature sizes are forced to
zero when the corresponding type is "None", then the derived direction,
tip and base fields are computed, with an early error return when the
picked points are coincident. -/
noncomputable def extractParams (A B : V2 ℝ) (r : RawInputs) :
    Except String (ThickLineParams ℝ) :=
  let featAWCm : ℝ := if r.featAType ≠ "None" then r.featAWIn else 0
  let featALCm : ℝ := if r.featAType ≠ "None" then r.featALIn else 0
  let featBWCm : ℝ := if r.featBType ≠ "None" then r.featBWIn else 0
  let featBLCm : ℝ := if r.featBType ≠ "None" then r.featBLIn else 0
  let diff := vsub B A
  let L := vlen diff
  if L ≤ kEpsCoincident ℝ then
    Except.error "Points A and B are coincident or too close together."
  else
    let Ldir := vscale diff (1 / L)
    let Wdir := vperp_ccw Ldir
    let Aext := vadd A (vscale Ldir (-r.leadACm))
    let Bext := vadd B (vscale Ldir r.leadBCm)
    let Abase := vadd Aext (vscale Ldir featALCm)
    let Bbase := vadd Bext (vscale Ldir (-featBLCm))
    Except.ok
      { A := A, B := B, widthCm := r.widthCm, leadACm := r.leadACm,
        leadBCm := r.leadBCm, featAType := r.featAType,
        featAWCm := featAWCm, featALCm := featALCm,
        featBType := r.featBType, featBWCm := featBWCm,
        featBLCm := featBLCm, L := L, Ldir := Ldir, Wdir := Wdir,
        Aext := Aext, Bext := Bext, Abase := Abase, Bbase := Bbase }

/-- Model of the host three-point-rectangle primitive used through
`drawThreePointRect`: the first two corners span one edge and the third
gives the opposite edge; the add-in only ever passes a third point whose
offset from the first is perpendicular to that edge, in which case the
four corners are as below. -/
def threePointRect (p0 p1 p3 : V2 K) : List (V2 K) :=
  [p0, p1, vadd p1 (vsub p3 p0), p3]

/-- Shape generation of the execute handler (`ThickLineCommandEventHandler`,
geometry part only): the main rectangle between the two base points and,
per end, a triangle for an Arrow terminator or a rectangle for a T
terminator, each polygon given as its corner list. -/
def generateShapes (P : ThickLineParams K) : List (List (V2 K)) :=
  let wHalf := vscale P.Wdir (P.widthCm * (1 / 2))
  let Aplus := vadd P.Abase wHalf
  let Aminus := vsub P.Abase wHalf
  let Bplus := vadd P.Bbase wHalf
  let main := threePointRect Aplus Bplus Aminus
  let featA : List (List (V2 K)) :=
    if P.featAType = "Arrow" then
      let aSide := vscale P.Wdir (P.featAWCm * (1 / 2))
      [[vadd P.Abase aSide, P.Aext, vadd P.Abase (vscale aSide (-1))]]
    else if P.featAType = "T" then
      let aSide := vscale P.Wdir (P.featAWCm * (1 / 2))
      let aL0 := vadd P.Abase aSide
      let aR0 := vadd P.Abase (vscale aSide (-1))
      let aL1 := vadd aL0 (vscale P.Ldir (-P.featALCm))
      [threePointRect aL0 aL1 aR0]
    else []
  let featB : List (List (V2 K)) :=
    if P.featBType = "Arrow" then
      let bSide := vscale P.Wdir (P.featBWCm * (1 / 2))
      [[vadd P.Bbase bSide, P.Bext, vadd P.Bbase (vscale bSide (-1))]]
    else if P.featBType = "T" then
      let bSide := vscale P.Wdir (P.featBWCm * (1 / 2))
      let bL0 := vadd P.Bbase bSide
      let bR0 := vadd P.Bbase (vscale bSide (-1))
      let bL1 := vadd bL0 (vscale P.Ldir P.featBLCm)
      [threePointRect bL0 bL1 bR0]
    else []
  main :: featA ++ featB

/-! Settings codec.  The C++ code reads and writes a `settings.ini` file;
the file system is host-side, so the codec is embedded as the pure map
between a settings record and the text content of that file, text being
modelled as `List Char`.  The numeric text produced for a `double` by
`operator<<` at the default stream precision of six significant digits is
modelled exactly over the rationals by `printNum`, and `std::stod` by
`parseNum` (the hexadecimal, infinity and nan forms of `stod`, and its
overflow exception, are not modelled; no claim depends on them). -/

/-- Source struct `ThickLineSettings` with its default member values
(0.2, "None", 0, 0.5). -/
structure ThickLineSettings where
  width_cm : ℚ := 1 / 5
  featAType : List Char := "None".data
  leadA_cm : ℚ := 0
  featAL_cm : ℚ := 1 / 2
  featAW_cm : ℚ := 1 / 2
  featBType : List Char := "None".data
  leadB_cm : ℚ := 0
  featBL_cm : ℚ := 1 / 2
  featBW_cm : ℚ := 1 / 2
deriving DecidableEq

/-- Rational power of ten, via integer power. -/
def pow10 (n : ℕ) : ℚ := mkRat ((10 : ℤ) ^ n) 1

/-- Multiply a rational by ten to a signed power. -/
def scale10 (q : ℚ) (e : ℤ) : ℚ :=
  if 0 ≤ e then q * pow10 e.toNat else q / pow10 (-e).toNat

/-- Decimal digit characters of a natural number, most significant first
(fuel-based division loop). -/
def natToDigitsAux : ℕ → ℕ → List Char → List Char
  | 0, _, acc => acc
  | fuel + 1, n, acc =>
    if n = 0 then acc
    else natToDigitsAux fuel (n / 10) (Char.ofNat (48 + n % 10) :: acc)

/-- Decimal digits of a natural number. -/
def natToDigits (n : ℕ) : List Char :=
  if n = 0 then ['0'] else natToDigitsAux (n + 1) n []

/-- Drop trailing zero characters. -/
def stripZeros (ds : List Char) : List Char :=
  (ds.reverse.dropWhile (fun c => c == '0')).reverse

/-- Least exponent `k` (starting from the given one) with `1 ≤ a * 10 ^ k`,
fuel-bounded. -/
def upExpAux : ℕ → ℚ → ℕ → ℕ
  | 0, _, k => k
  | fuel + 1, a, k =>
    if 1 ≤ a * pow10 k then k else upExpAux fuel a (k + 1)

/-- Decimal exponent of a positive rational: the unique `e` with
`10 ^ e ≤ a < 10 ^ (e + 1)`. -/
def decExp (a : ℚ) : ℤ :=
  if 1 ≤ a then ((natToDigits a.floor.toNat).length : ℤ) - 1
  else -(upExpAux ((natToDigits a.den).length + 1) a 1 : ℤ)

/-- Round to the nearest integer, ties to even. -/
def roundHalfEven (q : ℚ) : ℤ :=
  let f := q.floor
  let r := q - mkRat f 1
  if r < 1 / 2 then f
  else if 1 / 2 < r then f + 1
  else if f % 2 = 0 then f else f + 1

/-- Mantissa of `a` rounded to six significant decimal digits, as a natural
number in `[10^5, 10^6)` together with the possibly bumped exponent. -/
def sixDigits (a : ℚ) (e : ℤ) : ℕ × ℤ :=
  let m := (roundHalfEven (scale10 a (5 - e))).toNat
  if m = 10 ^ 6 then (10 ^ 5, e + 1) else (m, e)

/-- Layout of the default C++ stream float format (printf %g at precision
six): fixed notation for exponents in [-4, 5], scientific otherwise,
trailing zeros of the fractional part stripped, exponent written with a
sign and at least two digits. -/
def formatG (m : ℕ) (e : ℤ) : List Char :=
  let ds := natToDigits m
  if -4 ≤ e ∧ e < 6 then
    if 0 ≤ e then
      let k := e.toNat + 1
      let intPart := ds.take k
      let frac := stripZeros (ds.drop k)
      if frac = [] then intPart else intPart ++ '.' :: frac
    else
      let frac := stripZeros ds
      ['0', '.'] ++ List.replicate (-(e + 1)).toNat '0' ++ frac
  else
    let frac := stripZeros (ds.drop 1)
    let mant := if frac = [] then ds.take 1 else ds.take 1 ++ '.' :: frac
    let eds := natToDigits e.natAbs
    let eds2 := if eds.length < 2 then '0' :: eds else eds
    mant ++ 'e' :: (if e < 0 then '-' else '+') :: eds2

/-- Text the stream insertion `f << v` produces for a double at the
default precision of six significant digits, modelled over the exact
rational value. -/
def printNum (q : ℚ) : List Char :=
  if q = 0 then ['0']
  else
    let a := if q < 0 then -q else q
    let p := sixDigits a (decExp a)
    (if q < 0 then ['-'] else []) ++ formatG p.1 p.2

/-- Whitespace test of the `std::stod` prefix skip (C `isspace`). -/
def isSpaceC (c : Char) : Bool :=
  c == ' ' || c == '\t' || c == '\n' || c == '\r' ||
    c.toNat == 11 || c.toNat == 12

/-- Value of one decimal digit character. -/
def digitVal (c : Char) : ℕ := c.toNat - 48

/-- Value of a most-significant-first decimal digit list. -/
def digitsVal (ds : List Char) : ℕ :=
  ds.foldl (fun a c => 10 * a + digitVal c) 0

/-- Model of `std::stod`: skip leading whitespace, optional sign, decimal
mantissa with optional point, optional exponent; `none` when no digit is
found (`stod` throws `invalid_argument` there, which the load loop
catches).  Trailing garbage is ignored, as by `stod`. -/
def parseNum (cs : List Char) : Option ℚ :=
  let cs1 := cs.dropWhile isSpaceC
  let sgn : Bool × List Char :=
    match cs1 with
    | '-' :: rest => (true, rest)
    | '+' :: rest => (false, rest)
    | rest => (false, rest)
  let intPart := sgn.2.takeWhile Char.isDigit
  let cs3 := sgn.2.drop intPart.length
  let fp : List Char × List Char :=
    match cs3 with
    | '.' :: rest => (rest.takeWhile Char.isDigit, rest.drop (rest.takeWhile Char.isDigit).length)
    | rest => ([], rest)
  if intPart.length = 0 ∧ fp.1.length = 0 then none
  else
    let mantNat := digitsVal (intPart ++ fp.1)
    let mant : ℤ := if sgn.1 then -(mantNat : ℤ) else (mantNat : ℤ)
    let base := mkRat mant (10 ^ fp.1.length)
    let expVal : ℤ :=
      match fp.2 with
      | 'e' :: rest | 'E' :: rest =>
        let es : Bool × List Char :=
          match rest with
          | '-' :: r2 => (true, r2)
          | '+' :: r2 => (false, r2)
          | r2 => (false, r2)
        let eds := es.2.takeWhile Char.isDigit
        if eds.length = 0 then 0
        else if es.1 then -(digitsVal eds : ℤ) else (digitsVal eds : ℤ)
      | _ => 0
    some (scale10 base expVal)

/-- One `key=value` line of `saveSettingsIni` (`f << key << '=' << value
<< "\n"`). -/
def kvLine (k v : List Char) : List Char := k ++ '=' :: v ++ ['\n']

/-- Source `saveSettingsIni`, as the text written to the settings file,
in the exact key order of the source. -/
def saveSettingsIni (s : ThickLineSettings) : List Char :=
  kvLine "width_cm".data (printNum s.width_cm) ++
  kvLine "featAType".data s.featAType ++
  kvLine "leadA_cm".data (printNum s.leadA_cm) ++
  kvLine "featAL_cm".data (printNum s.featAL_cm) ++
  kvLine "featAW_cm".data (printNum s.featAW_cm) ++
  kvLine "featBType".data s.featBType ++
  kvLine "leadB_cm".data (printNum s.leadB_cm) ++
  kvLine "featBL_cm".data (printNum s.featBL_cm) ++
  kvLine "featBW_cm".data (printNum s.featBW_cm)

/-- Split text into `std::getline` lines: segments between newline
characters, with no extra empty line after a trailing newline. -/
def linesOf : List Char → List (List Char)
  | [] => []
  | c :: cs =>
    if c = '\n' then [] :: linesOf cs
    else
      match linesOf cs with
      | [] => [[c]]
      | l :: ls => (c :: l) :: ls

/-- One iteration of the `loadSettingsIni` while loop: find the first
separator, split into key and value, assign the type strings verbatim,
parse every other recognized key as a number, ignore a line with no
separator, an unknown key, or an unparsable number. -/
def applyLine (s : ThickLineSettings) (line : List Char) : ThickLineSettings :=
  let key := line.takeWhile (fun c => c ≠ '=')
  if key.length = line.length then s
  else
    let value := line.drop (key.length + 1)
    if key = "featAType".data then { s with featAType := value }
    else if key = "featBType".data then { s with featBType := value }
    else
      match parseNum value with
      | none => s
      | some v =>
        if key = "width_cm".data then { s with width_cm := v }
        else if key = "leadA_cm".data then { s with leadA_cm := v }
        else if key = "leadB_cm".data then { s with leadB_cm := v }
        else if key = "featAL_cm".data then { s with featAL_cm := v }
        else if key = "featAW_cm".data then { s with featAW_cm := v }
        else if key = "featBL_cm".data then { s with featBL_cm := v }
        else if key = "featBW_cm".data then { s with featBW_cm := v }
        else s

/-- Line loop of `loadSettingsIni` over given file text, starting from the
defaults. -/
def loadFromText (cs : List Char) : ThickLineSettings :=
  (linesOf cs).foldl applyLine {}

/-- Source `loadSettingsIni`: the file content is host-supplied, `none`
standing for an absent or unreadable file, in which case the defaults are
returned. -/
def loadSettingsIni : Option (List Char) → ThickLineSettings
  | none => {}
  | some cs => loadFromText cs

/-- Validator checks in their source order, each paired with its message,
used to state that `validateParams` reports exactly the first failure. -/
def orderedChecks (P : ThickLineParams K) : List (Bool × String) :=
  [(decide (P.widthCm ≤ 0), "Width of line must be > 0."),
   (decide (P.L ≤ kEpsCoincident K), "Points A and B are coincident or too close together."),
   (decide (P.featAType ≠ "None" ∧ P.featAWCm < P.widthCm), "Feature A width must be >= line width."),
   (decide (P.featAType ≠ "None" ∧ P.featALCm ≤ 0), "Feature A length must be > 0."),
   (decide (P.featBType ≠ "None" ∧ P.featBWCm < P.widthCm), "Feature B width must be >= line width."),
   (decide (P.featBType ≠ "None" ∧ P.featBLCm ≤ 0), "Feature B length must be > 0."),
   (decide (vdot (vsub P.Bbase P.Abase) P.Ldir ≤ kEpsSketchLen K), "Leads and/or feature lengths consume the segment. Reduce leads/features or move A and B further apart.")]

/-- Signed z-component of the cross product of two plane vectors. -/
def crossZ (a b : V2 K) : K := a.x * b.y - a.y * b.x

/-- Strict convexity of a quadrilateral given by its corners in order: the
four consecutive edge cross products share a strict sign, which makes the
closed polyline non-self-intersecting. -/
def quadConvex (p0 p1 p2 p3 : V2 K) : Prop :=
  let c0 := crossZ (vsub p1 p0) (vsub p2 p1)
  let c1 := crossZ (vsub p2 p1) (vsub p3 p2)
  let c2 := crossZ (vsub p3 p2) (vsub p0 p3)
  let c3 := crossZ (vsub p0 p3) (vsub p1 p0)
  (0 < c0 ∧ 0 < c1 ∧ 0 < c2 ∧ 0 < c3) ∨ (c0 < 0 ∧ c1 < 0 ∧ c2 < 0 ∧ c3 < 0)

/-- Derived record written with the formulas exactly as claim C1 states
them: `L = |B - A|`, `Ldir = (B - A) / L`, `Wdir` the 90 degree
counter-clockwise perpendicular of `Ldir`, `Aext = A - Ldir * leadACm`,
`Bext = B + Ldir * leadBCm`, `Abase = Aext + Ldir * featALCm`,
`Bbase = Bext - Ldir * featBLCm`, the feature sizes forced to zero for a
"None" type regardless of the raw inputs. -/
noncomputable def derivedSpec (A B : V2 ℝ) (r : RawInputs) : ThickLineParams ℝ :=
  let L := vlen (vsub B A)
  let Ldir := vscale (vsub B A) (1 / L)
  let Wdir := vperp_ccw Ldir
  let featAWCm : ℝ := if r.featAType = "None" then 0 else r.featAWIn
  let featALCm : ℝ := if r.featAType = "None" then 0 else r.featALIn
  let featBWCm : ℝ := if r.featBType = "None" then 0 else r.featBWIn
  let featBLCm : ℝ := if r.featBType = "None" then 0 else r.featBLIn
  let Aext := vsub A (vscale Ldir r.leadACm)
  let Bext := vadd B (vscale Ldir r.leadBCm)
  let Abase := vadd Aext (vscale Ldir featALCm)
  let Bbase := vsub Bext (vscale Ldir featBLCm)
  { A := A, B := B, widthCm := r.widthCm, leadACm := r.leadACm,
    leadBCm := r.leadBCm, featAType := r.featAType, featAWCm := featAWCm,
    featALCm := featALCm, featBType := r.featBType, featBWCm := featBWCm,
    featBLCm := featBLCm, L := L, Ldir := Ldir, Wdir := Wdir,
    Aext := Aext, Bext := Bext, Abase := Abase, Bbase := Bbase }

/-- Raw inputs for the claim C1 witness: a lead on both ends, an Arrow at
A and nonzero raw feature sizes at the inactive end B. -/
noncomputable def rW : RawInputs :=
  { widthCm := 2, leadACm := 1, leadBCm := 1, featAType := "Arrow",
    featBType := "None", featAWIn := 3, featALIn := 1, featBWIn := 7,
    featBLIn := 7 }

/-- Raw inputs of the claim C6 scenario: width 2, zero leads, both
terminator types "None" (with nonzero raw sizes, which derivation must
zero out). -/
noncomputable def r6 : RawInputs :=
  { widthCm := 2, leadACm := 0, leadBCm := 0, featAType := "None",
    featBType := "None", featAWIn := 1 / 2, featALIn := 1 / 2,
    featBWIn := 1 / 2, featBLIn := 1 / 2 }

/-- Record derivation produces in the claim C6 scenario. -/
noncomputable def P6 : ThickLineParams ℝ :=
  { A := ⟨0, 0⟩, B := ⟨10, 0⟩, widthCm := 2, leadACm := 0, leadBCm := 0,
    featAType := "None", featAWCm := 0, featALCm := 0,
    featBType := "None", featBWCm := 0, featBLCm := 0,
    L := 10, Ldir := ⟨1, 0⟩, Wdir := ⟨0, 1⟩, Aext := ⟨0, 0⟩,
    Bext := ⟨10, 0⟩, Abase := ⟨0, 0⟩, Bbase := ⟨10, 0⟩ }

/-- Raw inputs of the claim C7 scenario: as C6 but with an Arrow of width
4 and length 2 at end A. -/
noncomputable def r7 : RawInputs :=
  { widthCm := 2, leadACm := 0, leadBCm := 0, featAType := "Arrow",
    featBType := "None", featAWIn := 4, featALIn := 2,
    featBWIn := 1 / 2, featBLIn := 1 / 2 }

/-- Record derivation produces in the claim C7 scenario. -/
noncomputable def P7 : ThickLineParams ℝ :=
  { A := ⟨0, 0⟩, B := ⟨10, 0⟩, widthCm := 2, leadACm := 0, leadBCm := 0,
    featAType := "Arrow", featAWCm := 4, featALCm := 2,
    featBType := "None", featBWCm := 0, featBLCm := 0,
    L := 10, Ldir := ⟨1, 0⟩, Wdir := ⟨0, 1⟩, Aext := ⟨0, 0⟩,
    Bext := ⟨10, 0⟩, Abase := ⟨2, 0⟩, Bbase := ⟨10, 0⟩ }

/-- The nine keys `loadSettingsIni` recognizes. -/
def knownKeys : List (List Char) :=
  ["width_cm".data, "featAType".data, "leadA_cm".data, "leadB_cm".data,
   "featAL_cm".data, "featAW_cm".data, "featBL_cm".data, "featBW_cm".data,
   "featBType".data]

/-- The seven numeric keys of the settings file. -/
def numericKeys : List (List Char) :=
  ["width_cm".data, "leadA_cm".data, "leadB_cm".data, "featAL_cm".data,
   "featAW_cm".data, "featBL_cm".data, "featBW_cm".data]

/-- Round-trip condition for one numeric field: the formatted text holds
no newline and parses back to the exact value. -/
def printParses (x : ℚ) : Prop :=
  '\n' ∉ printNum x ∧ parseNum (printNum x) = some x

instance (x : ℚ) : Decidable (printParses x) := by
  unfold printParses
  infer_instance

/-- Settings record whose values all survive the six-significant-digit
formatter, for the claim C8 witness. -/
def Sw : ThickLineSettings :=
  { width_cm := 3 / 10, featAType := "Arrow".data, leadA_cm := 1,
    featAL_cm := 1 / 2, featAW_cm := 3 / 4, featBType := "T".data,
    leadB_cm := 2, featBL_cm := 5 / 4, featBW_cm := 1 / 2 }

/-- Settings record with the decimal width 0.1234567: seven significant
digits, which the default stream precision of six rounds to 0.123457, so
the encode/decode round trip loses it. -/
def Scx : ThickLineSettings := { width_cm := mkRat 1234567 10000000 }

/-- Concrete validator record used to instantiate claim C2: a record that
passes every earlier check while its leads and feature lengths consume the
segment boundaries outward (the projection is 22, so validation
succeeds). -/
def Pw2 : ThickLineParams ℚ :=
  { A := ⟨0, 0⟩, B := ⟨10, 0⟩, widthCm := 1, leadACm := 6, leadBCm := 6,
    featAType := "None", featAWCm := 0, featALCm := 0,
    featBType := "None", featBWCm := 0, featBLCm := 0,
    L := 10, Ldir := ⟨1, 0⟩, Wdir := ⟨0, 1⟩, Aext := ⟨-6, 0⟩,
    Bext := ⟨16, 0⟩, Abase := ⟨-6, 0⟩, Bbase := ⟨16, 0⟩ }

/-- Record a derivation would produce from picks A=(0,0), B=(10,0), zero
leads, an Arrow at A with raw width 2 and raw length 0, and a T at B with
raw width 1/2 and raw length 1, at line width 1.  End B has an active
terminator narrower than the line, yet the validator reports the feature A
length failure first. -/
def Pcx : ThickLineParams ℚ :=
  { A := ⟨0, 0⟩, B := ⟨10, 0⟩, widthCm := 1, leadACm := 0, leadBCm := 0,
    featAType := "Arrow", featAWCm := 2, featALCm := 0,
    featBType := "T", featBWCm := 1 / 2, featBLCm := 1,
    L := 10, Ldir := ⟨1, 0⟩, Wdir := ⟨0, 1⟩, Aext := ⟨0, 0⟩,
    Bext := ⟨10, 0⟩, Abase := ⟨0, 0⟩, Bbase := ⟨9, 0⟩ }

/-- Record with only an end B terminator narrower than the line and every
earlier check passing, used to instantiate the amended claim C5. -/
def PwB : ThickLineParams ℚ :=
  { A := ⟨0, 0⟩, B := ⟨10, 0⟩, widthCm := 1, leadACm := 0, leadBCm := 0,
    featAType := "None", featAWCm := 0, featALCm := 0,
    featBType := "T", featBWCm := 1 / 2, featBLCm := 1,
    L := 10, Ldir := ⟨1, 0⟩, Wdir := ⟨0, 1⟩, Aext := ⟨0, 0⟩,
    Bext := ⟨10, 0⟩, Abase := ⟨0, 0⟩, Bbase := ⟨9, 0⟩ }

/-- Validator record with positive width and a coincident baseline, for
the claim C4 witness. -/
def Pco : ThickLineParams ℚ :=
  { A := ⟨1, 1⟩, B := ⟨1, 1⟩, widthCm := 1, leadACm := 0, leadBCm := 0,
    featAType := "None", featAWCm := 0, featALCm := 0,
    featBType := "None", featBWCm := 0, featBLCm := 0,
    L := 0, Ldir := ⟨0, 0⟩, Wdir := ⟨0, 0⟩, Aext := ⟨1, 1⟩,
    Bext := ⟨1, 1⟩, Abase := ⟨1, 1⟩, Bbase := ⟨1, 1⟩ }

/-! Theorems for the validator claims. -/

/-- Claim C2: once a derived record passes the width, coincidence and
per-end terminator checks, validation succeeds exactly when the projection
of `Bbase - Abase` on `Ldir` exceeds 1e-9, and on failure of that last
check the single reason is the segment-consumption message. -/
theorem validate_segment_iff (P : ThickLineParams K)
    (hw : 0 < P.widthCm) (hL : kEpsCoincident K < P.L)
    (hA : P.featAType ≠ "None" → P.widthCm ≤ P.featAWCm ∧ 0 < P.featALCm)
    (hB : P.featBType ≠ "None" → P.widthCm ≤ P.featBWCm ∧ 0 < P.featBLCm) :
    (validateParams P = none ↔
      kEpsSketchLen K < vdot (vsub P.Bbase P.Abase) P.Ldir) ∧
    (vdot (vsub P.Bbase P.Abase) P.Ldir ≤ kEpsSketchLen K →
      validateParams P =
        some "Leads and/or feature lengths consume the segment. Reduce leads/features or move A and B further apart.") := by
  have h1 : ¬P.widthCm ≤ 0 := not_le.2 hw
  have h2 : ¬P.L ≤ kEpsCoincident K := not_le.2 hL
  have h3 : ¬(P.featAType ≠ "None" ∧ P.featAWCm < P.widthCm) :=
    fun h => absurd (hA h.1).1 (not_le.2 h.2)
  have h4 : ¬(P.featAType ≠ "None" ∧ P.featALCm ≤ 0) :=
    fun h => absurd (hA h.1).2 (not_lt.2 h.2)
  have h5 : ¬(P.featBType ≠ "None" ∧ P.featBWCm < P.widthCm) :=
    fun h => absurd (hB h.1).1 (not_le.2 h.2)
  have h6 : ¬(P.featBType ≠ "None" ∧ P.featBLCm ≤ 0) :=
    fun h => absurd (hB h.1).2 (not_lt.2 h.2)
  unfold validateParams
  rw [if_neg h1, if_neg h2, if_neg h3, if_neg h4, if_neg h5, if_neg h6]
  by_cases hc : vdot (vsub P.Bbase P.Abase) P.Ldir ≤ kEpsSketchLen K
  · rw [if_pos hc]
    exact ⟨by simp [not_lt.2 hc], fun _ => rfl⟩
  · rw [if_neg hc]
    exact ⟨by simp [not_le.1 hc], fun hle => absurd hle hc⟩

/-- Witness for claim C2 at a concrete record (`Pw2` passes the earlier
checks and its projection is 22, so validation succeeds). -/
theorem validate_segment_iff_witness :
    (0 < Pw2.widthCm ∧ kEpsCoincident ℚ < Pw2.L) ∧
    (validateParams Pw2 = none ↔
      kEpsSketchLen ℚ < vdot (vsub Pw2.Bbase Pw2.Abase) Pw2.Ldir) ∧
    (vdot (vsub Pw2.Bbase Pw2.Abase) Pw2.Ldir ≤ kEpsSketchLen ℚ →
      validateParams Pw2 =
        some "Leads and/or feature lengths consume the segment. Reduce leads/features or move A and B further apart.") :=
  ⟨by decide,
    validate_segment_iff Pw2 (by decide) (by decide) (by decide) (by decide)⟩

/-- Claim C3: the validator reports exactly the first failing check of the
fixed source order (width, coincidence, feature A width then length,
feature B width then length, segment feasibility), hence at most one
reason; determinism is immediate since `validateParams` is a pure
function of the record. -/
theorem validate_priority_order (P : ThickLineParams K) :
    validateParams P =
      ((orderedChecks P).find? (fun c => c.1)).map (fun c => c.2) := by
  unfold validateParams orderedChecks
  by_cases h1 : P.widthCm ≤ 0 <;>
    by_cases h2 : P.L ≤ kEpsCoincident K <;>
    by_cases ha : P.featAType = "None" <;>
    by_cases h3 : P.featAWCm < P.widthCm <;>
    by_cases h4 : P.featALCm ≤ 0 <;>
    by_cases hb : P.featBType = "None" <;>
    by_cases h5 : P.featBWCm < P.widthCm <;>
    by_cases h6 : P.featBLCm ≤ 0 <;>
    by_cases h7 : vdot (vsub P.Bbase P.Abase) P.Ldir ≤ kEpsSketchLen K <;>
    simp [h1, h2, ha, h3, h4, hb, h5, h6, h7, List.find?]

/-- Counterexample to claim C5 as stated: `Pcx` carries an active T
terminator at end B with width 1/2 below the line width 1, but validation
does not surface the end B width message — an earlier check (feature A
length) fails first, so the message is not independent of the other
parameters. -/
theorem feature_width_cex :
    Pcx.featBType = "T" ∧ Pcx.featBWCm < Pcx.widthCm ∧
    validateParams Pcx = some "Feature A length must be > 0." ∧
    validateParams Pcx ≠ some "Feature B width must be >= line width." := by
  decide

/-- Claim C5 as amended: with an active terminator narrower than the line
at either end, validation always fails; the reason is that end's width
message provided the checks that precede it pass (width positive, points
not coincident, and for end B also both end A checks). -/
theorem feature_width_fails (P : ThickLineParams K)
    (h : ((P.featAType = "Arrow" ∨ P.featAType = "T") ∧ P.featAWCm < P.widthCm) ∨
         ((P.featBType = "Arrow" ∨ P.featBType = "T") ∧ P.featBWCm < P.widthCm)) :
    validateParams P ≠ none ∧
    (0 < P.widthCm → kEpsCoincident K < P.L →
      (((P.featAType = "Arrow" ∨ P.featAType = "T") ∧ P.featAWCm < P.widthCm) →
        validateParams P = some "Feature A width must be >= line width.") ∧
      (((P.featBType = "Arrow" ∨ P.featBType = "T") ∧ P.featBWCm < P.widthCm) →
        (P.featAType ≠ "None" → P.widthCm ≤ P.featAWCm ∧ 0 < P.featALCm) →
        validateParams P = some "Feature B width must be >= line width.")) := by
  have hAne : (P.featAType = "Arrow" ∨ P.featAType = "T") → P.featAType ≠ "None" := by
    rintro (ht | ht) <;> rw [ht] <;> decide
  have hBne : (P.featBType = "Arrow" ∨ P.featBType = "T") → P.featBType ≠ "None" := by
    rintro (ht | ht) <;> rw [ht] <;> decide
  constructor
  · intro hnone
    unfold validateParams at hnone
    by_cases h1 : P.widthCm ≤ 0
    · rw [if_pos h1] at hnone; exact Option.noConfusion hnone
    rw [if_neg h1] at hnone
    by_cases h2 : P.L ≤ kEpsCoincident K
    · rw [if_pos h2] at hnone; exact Option.noConfusion hnone
    rw [if_neg h2] at hnone
    by_cases h3 : P.featAType ≠ "None" ∧ P.featAWCm < P.widthCm
    · rw [if_pos h3] at hnone; exact Option.noConfusion hnone
    rw [if_neg h3] at hnone
    by_cases h4 : P.featAType ≠ "None" ∧ P.featALCm ≤ 0
    · rw [if_pos h4] at hnone; exact Option.noConfusion hnone
    rw [if_neg h4] at hnone
    by_cases h5 : P.featBType ≠ "None" ∧ P.featBWCm < P.widthCm
    · rw [if_pos h5] at hnone; exact Option.noConfusion hnone
    rcases h with ⟨ht, hwlt⟩ | ⟨ht, hwlt⟩
    · exact h3 ⟨hAne ht, hwlt⟩
    · exact h5 ⟨hBne ht, hwlt⟩
  · intro hw hL
    have h1 : ¬P.widthCm ≤ 0 := not_le.2 hw
    have h2 : ¬P.L ≤ kEpsCoincident K := not_le.2 hL
    constructor
    · rintro ⟨ht, hwlt⟩
      unfold validateParams
      rw [if_neg h1, if_neg h2, if_pos ⟨hAne ht, hwlt⟩]
    · rintro ⟨ht, hwlt⟩ hApass
      have h3 : ¬(P.featAType ≠ "None" ∧ P.featAWCm < P.widthCm) :=
        fun hc => absurd (hApass hc.1).1 (not_le.2 hc.2)
      have h4 : ¬(P.featAType ≠ "None" ∧ P.featALCm ≤ 0) :=
        fun hc => absurd (hApass hc.1).2 (not_lt.2 hc.2)
      unfold validateParams
      rw [if_neg h1, if_neg h2, if_neg h3, if_neg h4,
        if_pos ⟨hBne ht, hwlt⟩]

/-- Witness for the amended claim C5 at the concrete record `PwB`. -/
theorem feature_width_fails_witness :
    (PwB.featBType = "T" ∧ PwB.featBWCm < PwB.widthCm ∧ 0 < PwB.widthCm ∧
      kEpsCoincident ℚ < PwB.L) ∧
    validateParams PwB ≠ none ∧
    validateParams PwB = some "Feature B width must be >= line width." := by
  refine ⟨by decide, ?_⟩
  have h := feature_width_fails PwB (Or.inr ⟨Or.inr (by decide), by decide⟩)
  exact ⟨h.1, (h.2 (by decide) (by decide)).2 ⟨Or.inr (by decide), by decide⟩
    (by decide)⟩

/-- Claim C4: coincident or nearly coincident picks make the derivation
fail with the coincidence message before any direction field is computed
(the embedded `extractParams` returns the error from the early guard and
produces no record), and the validator, on any record with positive width
and such an `L`, independently rejects with the same message. -/
theorem coincident_points_rejected :
    (∀ (A B : V2 ℝ) (r : RawInputs), vlen (vsub B A) ≤ kEpsCoincident ℝ →
      extractParams A B r =
        Except.error "Points A and B are coincident or too close together.") ∧
    (∀ (K : Type) [LinearOrderedField K] (P : ThickLineParams K),
      0 < P.widthCm → P.L ≤ kEpsCoincident K →
      validateParams P =
        some "Points A and B are coincident or too close together.") := by
  constructor
  · intro A B r h
    simp only [extractParams]
    rw [if_pos h]
  · intro K _ P hw hL
    unfold validateParams
    rw [if_neg (not_le.2 hw), if_pos hL]

/-- Witness for claim C4: coincident picks A = B = (0,0) are refused by
the derivation, and the record `Pco` is refused by the validator. -/
theorem coincident_points_rejected_witness :
    (vlen (vsub ⟨0, 0⟩ ⟨0, 0⟩) ≤ kEpsCoincident ℝ ∧
      extractParams ⟨0, 0⟩ ⟨0, 0⟩
          { widthCm := 1, leadACm := 0, leadBCm := 0, featAType := "None",
            featBType := "None", featAWIn := 0, featALIn := 0,
            featBWIn := 0, featBLIn := 0 } =
        Except.error "Points A and B are coincident or too close together.") ∧
    (0 < Pco.widthCm ∧ Pco.L ≤ kEpsCoincident ℚ ∧
      validateParams Pco =
        some "Points A and B are coincident or too close together.") := by
  have hlen : vlen (vsub (⟨0, 0⟩ : V2 ℝ) ⟨0, 0⟩) ≤ kEpsCoincident ℝ := by
    simp [vlen, vsub, kEpsCoincident]
  refine ⟨⟨hlen, coincident_points_rejected.1 _ _ _ hlen⟩,
    by decide, by decide,
    coincident_points_rejected.2 ℚ Pco (by decide) (by decide)⟩

/-- Adding a negatively scaled vector is subtracting the scaled vector. -/
theorem vadd_vscale_neg (a b : V2 K) (s : K) :
    vadd a (vscale b (-s)) = vsub a (vscale b s) := by
  simp only [vadd, vsub, vscale, V2.mk.injEq]
  constructor <;> ring

/-- Length of the vector from (0,0) to (10,0). -/
theorem vlen_ten : vlen (vsub ⟨10, 0⟩ ⟨0, 0⟩) = 10 := by
  have hv : vsub (⟨10, 0⟩ : V2 ℝ) ⟨0, 0⟩ = ⟨10, 0⟩ := by
    simp [vsub]
  rw [hv]
  simp only [vlen]
  rw [show (10 : ℝ) * 10 + 0 * 0 = 10 ^ 2 by norm_num]
  exact Real.sqrt_sq (by norm_num)

/-- Length of the vector from (0,0) to (3,4). -/
theorem vlen_five : vlen (vsub ⟨3, 4⟩ ⟨0, 0⟩) = 5 := by
  have hv : vsub (⟨3, 4⟩ : V2 ℝ) ⟨0, 0⟩ = ⟨3, 4⟩ := by
    simp [vsub]
  rw [hv]
  simp only [vlen]
  rw [show (3 : ℝ) * 3 + 4 * 4 = 5 ^ 2 by norm_num]
  exact Real.sqrt_sq (by norm_num)

/-- Claim C1: for non-coincident picks, derivation returns exactly the
record described by the claim formulas (`derivedSpec`), including the
force-to-zero of feature sizes for a "None" terminator type. -/
theorem extract_params_matches_spec (A B : V2 ℝ) (r : RawInputs)
    (h : kEpsCoincident ℝ < vlen (vsub B A)) :
    extractParams A B r = Except.ok (derivedSpec A B r) := by
  have hft : ∀ (t : String) (x : ℝ),
      (if t ≠ "None" then x else 0) = (if t = "None" then 0 else x) := by
    intro t x
    by_cases ht : t = "None" <;> simp [ht]
  simp only [extractParams, derivedSpec, if_neg (not_le.2 h), hft,
    vadd_vscale_neg]

/-- Witness for claim C1 at A = (0,0), B = (3,4) with the raw inputs
`rW`. -/
theorem extract_params_matches_spec_witness :
    kEpsCoincident ℝ < vlen (vsub ⟨3, 4⟩ ⟨0, 0⟩) ∧
    extractParams ⟨0, 0⟩ ⟨3, 4⟩ rW = Except.ok (derivedSpec ⟨0, 0⟩ ⟨3, 4⟩ rW) := by
  have h : kEpsCoincident ℝ < vlen (vsub ⟨3, 4⟩ ⟨0, 0⟩) := by
    rw [vlen_five]
    norm_num [kEpsCoincident]
  exact ⟨h, extract_params_matches_spec _ _ _ h⟩

/-- Claim C6: the scenario A=(0,0), B=(10,0), width 2, zero leads, both
terminators "None" derives `P6`, validates, and generates exactly one
polygon, the rectangle with corner set (0,1), (10,1), (0,-1), (10,-1) in a
strictly convex (hence non-self-intersecting) order. -/
theorem scenario_plain_rect :
    extractParams ⟨0, 0⟩ ⟨10, 0⟩ r6 = Except.ok P6 ∧
    validateParams P6 = none ∧
    generateShapes P6 = [[⟨0, 1⟩, ⟨10, 1⟩, ⟨10, -1⟩, ⟨0, -1⟩]] ∧
    ([⟨0, 1⟩, ⟨10, 1⟩, ⟨10, -1⟩, ⟨0, -1⟩] : List (V2 ℝ)).Perm
      [⟨0, 1⟩, ⟨10, 1⟩, ⟨0, -1⟩, ⟨10, -1⟩] ∧
    quadConvex (⟨0, 1⟩ : V2 ℝ) ⟨10, 1⟩ ⟨10, -1⟩ ⟨0, -1⟩ := by
  refine ⟨?_, ?_, ?_, ?_, ?_⟩
  · simp only [extractParams, r6]
    rw [vlen_ten, if_neg (by norm_num [kEpsCoincident])]
    refine congrArg Except.ok ?_
    norm_num [P6, ThickLineParams.mk.injEq, vadd, vsub, vscale, vperp_ccw,
      V2.mk.injEq]
  · unfold validateParams
    rw [if_neg (by norm_num [P6]), if_neg (by norm_num [P6, kEpsCoincident]),
      if_neg (fun hc => hc.1 rfl), if_neg (fun hc => hc.1 rfl),
      if_neg (fun hc => hc.1 rfl), if_neg (fun hc => hc.1 rfl),
      if_neg (by norm_num [P6, vdot, vsub, kEpsSketchLen])]
  · simp only [generateShapes, threePointRect, P6]
    norm_num [vadd, vsub, vscale, V2.mk.injEq,
      (show ("None" : String) ≠ "Arrow" by decide),
      (show ("None" : String) ≠ "T" by decide)]
  · exact .cons _ (.cons _ (.swap _ _ _))
  · simp only [quadConvex, crossZ, vsub]
    right
    norm_num

/-- Claim C7: the scenario of C6 with an Arrow of width 4 and length 2 at
end A derives `P7` (base points (2,0) and (10,0), tip (0,0)), validates,
and generates the main rectangle between the base points plus one
triangle with apex (0,0) and base corners (2,2), (2,-2), and no end B
shape. -/
theorem scenario_arrow :
    extractParams ⟨0, 0⟩ ⟨10, 0⟩ r7 = Except.ok P7 ∧
    P7.Abase = ⟨2, 0⟩ ∧ P7.Bbase = ⟨10, 0⟩ ∧ P7.Aext = ⟨0, 0⟩ ∧
    validateParams P7 = none ∧
    generateShapes P7 =
      [[⟨2, 1⟩, ⟨10, 1⟩, ⟨10, -1⟩, ⟨2, -1⟩],
       [⟨2, 2⟩, ⟨0, 0⟩, ⟨2, -2⟩]] := by
  refine ⟨?_, rfl, rfl, rfl, ?_, ?_⟩
  · simp only [extractParams, r7]
    rw [vlen_ten, if_neg (by norm_num [kEpsCoincident])]
    refine congrArg Except.ok ?_
    norm_num [P7, ThickLineParams.mk.injEq, vadd, vsub, vscale, vperp_ccw,
      V2.mk.injEq, (show ("Arrow" : String) ≠ "None" by decide)]
  · unfold validateParams
    rw [if_neg (by norm_num [P7]), if_neg (by norm_num [P7, kEpsCoincident]),
      if_neg (by norm_num [P7]), if_neg (by norm_num [P7]),
      if_neg (fun hc => hc.1 rfl), if_neg (fun hc => hc.1 rfl),
      if_neg (by norm_num [P7, vdot, vsub, kEpsSketchLen])]
  · simp only [generateShapes, threePointRect, P7]
    norm_num [vadd, vsub, vscale, V2.mk.injEq,
      (show ("Arrow" : String) ≠ "T" by decide),
      (show ("None" : String) ≠ "Arrow" by decide),
      (show ("None" : String) ≠ "T" by decide)]

/-! Codec helper lemmas. -/

/-- A key without separator characters is what the split extracts. -/
theorem takeWhile_key (k v : List Char) (hk : '=' ∉ k) :
    (k ++ '=' :: v).takeWhile (fun c => c ≠ '=') = k := by
  induction k with
  | nil => simp
  | cons c ck ih =>
    simp only [List.mem_cons, not_or] at hk
    have hc : c ≠ '=' := fun h => hk.1 h.symm
    rw [List.cons_append, List.takeWhile_cons_of_pos (by simp [hc]), ih hk.2]

/-- A line with no separator is its own key. -/
theorem takeWhile_no_sep (l : List Char) (h : '=' ∉ l) :
    l.takeWhile (fun c => c ≠ '=') = l := by
  induction l with
  | nil => simp
  | cons c cl ih =>
    simp only [List.mem_cons, not_or] at h
    have hc : c ≠ '=' := fun hq => h.1 hq.symm
    rw [List.takeWhile_cons_of_pos (by simp [hc]), ih h.2]

/-- The key is strictly shorter than a line holding a separator. -/
theorem key_length_ne (k v : List Char) :
    ¬(k.length = (k ++ '=' :: v).length) := by
  simp only [List.length_append, List.length_cons]
  omega

/-- Dropping the key and the separator leaves the value. -/
theorem drop_key (k v : List Char) : (k ++ '=' :: v).drop (k.length + 1) = v := by
  rw [show k ++ '=' :: v = (k ++ ['=']) ++ v by simp,
    show k.length + 1 = (k ++ ['=']).length by simp,
    List.drop_left]

/-- The line loop step on a split line, with the key comparisons still
symbolic. -/
theorem applyLine_split (s : ThickLineSettings) (k v : List Char)
    (hk : '=' ∉ k) :
    applyLine s (k ++ '=' :: v) =
      (if k = "featAType".data then { s with featAType := v }
       else if k = "featBType".data then { s with featBType := v }
       else
         match parseNum v with
         | none => s
         | some w =>
           if k = "width_cm".data then { s with width_cm := w }
           else if k = "leadA_cm".data then { s with leadA_cm := w }
           else if k = "leadB_cm".data then { s with leadB_cm := w }
           else if k = "featAL_cm".data then { s with featAL_cm := w }
           else if k = "featAW_cm".data then { s with featAW_cm := w }
           else if k = "featBL_cm".data then { s with featBL_cm := w }
           else if k = "featBW_cm".data then { s with featBW_cm := w }
           else s) := by
  simp only [applyLine]
  rw [takeWhile_key k v hk, if_neg (key_length_ne k v), drop_key k v]

/-- Step lemma for the `width_cm` line. -/
theorem applyLine_width_cm (s : ThickLineSettings) (v : List Char) :
    applyLine s ("width_cm".data ++ '=' :: v) =
      match parseNum v with
      | none => s
      | some w => { s with width_cm := w } := by
  rw [applyLine_split s _ v (by decide)]
  simp [(show "width_cm".data ≠ "featAType".data by decide),
    (show "width_cm".data ≠ "featBType".data by decide)]

/-- Step lemma for the `featAType` line. -/
theorem applyLine_featAType (s : ThickLineSettings) (v : List Char) :
    applyLine s ("featAType".data ++ '=' :: v) = { s with featAType := v } := by
  rw [applyLine_split s _ v (by decide)]
  simp

/-- Step lemma for the `featBType` line. -/
theorem applyLine_featBType (s : ThickLineSettings) (v : List Char) :
    applyLine s ("featBType".data ++ '=' :: v) = { s with featBType := v } := by
  rw [applyLine_split s _ v (by decide)]
  simp [(show "featBType".data ≠ "featAType".data by decide)]

/-- Step lemma for the `leadA_cm` line. -/
theorem applyLine_leadA_cm (s : ThickLineSettings) (v : List Char) :
    applyLine s ("leadA_cm".data ++ '=' :: v) =
      match parseNum v with
      | none => s
      | some w => { s with leadA_cm := w } := by
  rw [applyLine_split s _ v (by decide)]
  simp [(show "leadA_cm".data ≠ "featAType".data by decide),
    (show "leadA_cm".data ≠ "featBType".data by decide),
    (show "leadA_cm".data ≠ "width_cm".data by decide)]

/-- Step lemma for the `leadB_cm` line. -/
theorem applyLine_leadB_cm (s : ThickLineSettings) (v : List Char) :
    applyLine s ("leadB_cm".data ++ '=' :: v) =
      match parseNum v with
      | none => s
      | some w => { s with leadB_cm := w } := by
  rw [applyLine_split s _ v (by decide)]
  simp [(show "leadB_cm".data ≠ "featAType".data by decide),
    (show "leadB_cm".data ≠ "featBType".data by decide),
    (show "leadB_cm".data ≠ "width_cm".data by decide),
    (show "leadB_cm".data ≠ "leadA_cm".data by decide)]

/-- Step lemma for the `featAL_cm` line. -/
theorem applyLine_featAL_cm (s : ThickLineSettings) (v : List Char) :
    applyLine s ("featAL_cm".data ++ '=' :: v) =
      match parseNum v with
      | none => s
      | some w => { s with featAL_cm := w } := by
  rw [applyLine_split s _ v (by decide)]
  simp [(show "featAL_cm".data ≠ "featAType".data by decide),
    (show "featAL_cm".data ≠ "featBType".data by decide),
    (show "featAL_cm".data ≠ "width_cm".data by decide),
    (show "featAL_cm".data ≠ "leadA_cm".data by decide),
    (show "featAL_cm".data ≠ "leadB_cm".data by decide)]

/-- Step lemma for the `featAW_cm` line. -/
theorem applyLine_featAW_cm (s : ThickLineSettings) (v : List Char) :
    applyLine s ("featAW_cm".data ++ '=' :: v) =
      match parseNum v with
      | none => s
      | some w => { s with featAW_cm := w } := by
  rw [applyLine_split s _ v (by decide)]
  simp [(show "featAW_cm".data ≠ "featAType".data by decide),
    (show "featAW_cm".data ≠ "featBType".data by decide),
    (show "featAW_cm".data ≠ "width_cm".data by decide),
    (show "featAW_cm".data ≠ "leadA_cm".data by decide),
    (show "featAW_cm".data ≠ "leadB_cm".data by decide),
    (show "featAW_cm".data ≠ "featAL_cm".data by decide)]

/-- Step lemma for the `featBL_cm` line. -/
theorem applyLine_featBL_cm (s : ThickLineSettings) (v : List Char) :
    applyLine s ("featBL_cm".data ++ '=' :: v) =
      match parseNum v with
      | none => s
      | some w => { s with featBL_cm := w } := by
  rw [applyLine_split s _ v (by decide)]
  simp [(show "featBL_cm".data ≠ "featAType".data by decide),
    (show "featBL_cm".data ≠ "featBType".data by decide),
    (show "featBL_cm".data ≠ "width_cm".data by decide),
    (show "featBL_cm".data ≠ "leadA_cm".data by decide),
    (show "featBL_cm".data ≠ "leadB_cm".data by decide),
    (show "featBL_cm".data ≠ "featAL_cm".data by decide),
    (show "featBL_cm".data ≠ "featAW_cm".data by decide)]

/-- Step lemma for the `featBW_cm` line. -/
theorem applyLine_featBW_cm (s : ThickLineSettings) (v : List Char) :
    applyLine s ("featBW_cm".data ++ '=' :: v) =
      match parseNum v with
      | none => s
      | some w => { s with featBW_cm := w } := by
  rw [applyLine_split s _ v (by decide)]
  simp [(show "featBW_cm".data ≠ "featAType".data by decide),
    (show "featBW_cm".data ≠ "featBType".data by decide),
    (show "featBW_cm".data ≠ "width_cm".data by decide),
    (show "featBW_cm".data ≠ "leadA_cm".data by decide),
    (show "featBW_cm".data ≠ "leadB_cm".data by decide),
    (show "featBW_cm".data ≠ "featAL_cm".data by decide),
    (show "featBW_cm".data ≠ "featAW_cm".data by decide),
    (show "featBW_cm".data ≠ "featBL_cm".data by decide)]

/-- Splitting off one getline line before a newline-free prefix. -/
theorem linesOf_append (l rest : List Char) (h : '\n' ∉ l) :
    linesOf (l ++ '\n' :: rest) = l :: linesOf rest := by
  induction l with
  | nil => simp [linesOf]
  | cons c cl ih =>
    simp only [List.mem_cons, not_or] at h
    have hc : ¬(c = '\n') := fun hq => h.1 hq.symm
    simp only [List.cons_append, linesOf, List.append_eq]
    rw [if_neg hc, ih h.2]

/-- A `key=value` line of the settings file holds no newline when the
value holds none (the keys are newline-free literals). -/
theorem nl_not_mem_line (k v : List Char) (hk : '\n' ∉ k) (hv : '\n' ∉ v) :
    '\n' ∉ k ++ '=' :: v := by
  intro hmem
  rcases List.mem_append.1 hmem with hm | hm
  · exact hk hm
  · rcases List.mem_cons.1 hm with hm | hm
    · exact absurd hm (by decide)
    · exact hv hm

/-- Splitting off one settings line written by `kvLine`. -/
theorem linesOf_kvLine (k v rest : List Char) (hk : '\n' ∉ k)
    (hv : '\n' ∉ v) :
    linesOf (kvLine k v ++ rest) = (k ++ '=' :: v) :: linesOf rest := by
  rw [show kvLine k v ++ rest = (k ++ '=' :: v) ++ '\n' :: rest by
      simp [kvLine]]
  exact linesOf_append _ _ (nl_not_mem_line k v hk hv)

/-- Splitting the final settings line, which ends the file text. -/
theorem linesOf_kvLine_last (k v : List Char) (hk : '\n' ∉ k)
    (hv : '\n' ∉ v) :
    linesOf (kvLine k v) = [k ++ '=' :: v] := by
  have h := linesOf_kvLine k v [] hk hv
  rw [List.append_nil] at h
  rw [h]
  rfl

set_option maxHeartbeats 1000000 in
/-- Claim C8 as amended: decoding the encoded text reproduces any settings
record whose terminator type strings hold no newline and whose numeric
fields survive the six-significant-digit stream formatting
(`printParses`); claim C8 as stated fails on seven-digit decimals, see the
counterexample. -/
theorem settings_roundtrip (s : ThickLineSettings)
    (hA : '\n' ∉ s.featAType) (hB : '\n' ∉ s.featBType)
    (h1 : printParses s.width_cm) (h2 : printParses s.leadA_cm)
    (h3 : printParses s.featAL_cm) (h4 : printParses s.featAW_cm)
    (h5 : printParses s.leadB_cm) (h6 : printParses s.featBL_cm)
    (h7 : printParses s.featBW_cm) :
    loadFromText (saveSettingsIni s) = s := by
  obtain ⟨hn1, hp1⟩ := h1
  obtain ⟨hn2, hp2⟩ := h2
  obtain ⟨hn3, hp3⟩ := h3
  obtain ⟨hn4, hp4⟩ := h4
  obtain ⟨hn5, hp5⟩ := h5
  obtain ⟨hn6, hp6⟩ := h6
  obtain ⟨hn7, hp7⟩ := h7
  unfold loadFromText saveSettingsIni
  repeat rw [List.append_assoc]
  rw [linesOf_kvLine "width_cm".data _ _ (by decide) hn1,
    linesOf_kvLine "featAType".data _ _ (by decide) hA,
    linesOf_kvLine "leadA_cm".data _ _ (by decide) hn2,
    linesOf_kvLine "featAL_cm".data _ _ (by decide) hn3,
    linesOf_kvLine "featAW_cm".data _ _ (by decide) hn4,
    linesOf_kvLine "featBType".data _ _ (by decide) hB,
    linesOf_kvLine "leadB_cm".data _ _ (by decide) hn5,
    linesOf_kvLine "featBL_cm".data _ _ (by decide) hn6,
    linesOf_kvLine_last "featBW_cm".data _ (by decide) hn7]
  simp only [List.foldl_cons, List.foldl_nil]
  rw [applyLine_width_cm, hp1]
  dsimp only
  rw [applyLine_featAType]
  dsimp only
  rw [applyLine_leadA_cm, hp2]
  dsimp only
  rw [applyLine_featAL_cm, hp3]
  dsimp only
  rw [applyLine_featAW_cm, hp4]
  dsimp only
  rw [applyLine_featBType]
  dsimp only
  rw [applyLine_leadB_cm, hp5]
  dsimp only
  rw [applyLine_featBL_cm, hp6]
  dsimp only
  rw [applyLine_featBW_cm, hp7]

/-- Witness for the amended claim C8 at the concrete record `Sw`. -/
theorem settings_roundtrip_witness :
    (printParses Sw.width_cm ∧ printParses Sw.featBL_cm ∧
      '\n' ∉ Sw.featAType) ∧
    loadFromText (saveSettingsIni Sw) = Sw :=
  ⟨by decide,
    settings_roundtrip Sw (by decide) (by decide) (by decide) (by decide)
      (by decide) (by decide) (by decide) (by decide) (by decide)⟩

/-- Counterexample to claim C8 as stated: the record `Scx` is built from
the decimal value 0.1234567, yet the stream formatter writes only six
significant digits, so decode of encode yields 0.123457 and not the
original record. -/
theorem settings_roundtrip_cex :
    Scx.width_cm = mkRat 1234567 10000000 ∧
    (loadFromText (saveSettingsIni Scx)).width_cm = mkRat 123457 1000000 ∧
    loadFromText (saveSettingsIni Scx) ≠ Scx := by
  decide

/-- Claim C9: the decoder skips a line without a separator, ignores an
unknown key, keeps the default when a numeric value fails to parse while
the loop goes on with the remaining lines, and an absent or unreadable
source yields exactly the default record. -/
theorem codec_tolerant :
    (∀ (s : ThickLineSettings) (l : List Char), '=' ∉ l →
      applyLine s l = s) ∧
    (∀ (s : ThickLineSettings) (k v : List Char), '=' ∉ k →
      k ∉ knownKeys → applyLine s (k ++ '=' :: v) = s) ∧
    (∀ (s : ThickLineSettings) (k v : List Char), k ∈ numericKeys →
      parseNum v = none → applyLine s (k ++ '=' :: v) = s) ∧
    (∀ (s : ThickLineSettings) (l : List Char) (rest : List (List Char)),
      List.foldl applyLine s (l :: rest) =
        List.foldl applyLine (applyLine s l) rest) ∧
    loadSettingsIni none =
      { width_cm := 1 / 5, featAType := "None".data, leadA_cm := 0,
        featAL_cm := 1 / 2, featAW_cm := 1 / 2, featBType := "None".data,
        leadB_cm := 0, featBL_cm := 1 / 2, featBW_cm := 1 / 2 } := by
  refine ⟨?_, ?_, ?_, ?_, rfl⟩
  · intro s l h
    simp only [applyLine]
    rw [takeWhile_no_sep l h, if_pos rfl]
  · intro s k v hk hku
    have n1 : ¬(k = "width_cm".data) := fun h => hku (by rw [h]; decide)
    have n2 : ¬(k = "featAType".data) := fun h => hku (by rw [h]; decide)
    have n3 : ¬(k = "leadA_cm".data) := fun h => hku (by rw [h]; decide)
    have n4 : ¬(k = "leadB_cm".data) := fun h => hku (by rw [h]; decide)
    have n5 : ¬(k = "featAL_cm".data) := fun h => hku (by rw [h]; decide)
    have n6 : ¬(k = "featAW_cm".data) := fun h => hku (by rw [h]; decide)
    have n7 : ¬(k = "featBL_cm".data) := fun h => hku (by rw [h]; decide)
    have n8 : ¬(k = "featBW_cm".data) := fun h => hku (by rw [h]; decide)
    have n9 : ¬(k = "featBType".data) := fun h => hku (by rw [h]; decide)
    rw [applyLine_split s k v hk, if_neg n2, if_neg n9]
    cases parseNum v with
    | none => rfl
    | some w =>
      dsimp only
      rw [if_neg n1, if_neg n3, if_neg n4, if_neg n5, if_neg n6, if_neg n7,
        if_neg n8]
  · intro s k v hm hv
    rcases List.mem_cons.1 hm with h | hm
    · subst h; rw [applyLine_width_cm, hv]
    rcases List.mem_cons.1 hm with h | hm
    · subst h; rw [applyLine_leadA_cm, hv]
    rcases List.mem_cons.1 hm with h | hm
    · subst h; rw [applyLine_leadB_cm, hv]
    rcases List.mem_cons.1 hm with h | hm
    · subst h; rw [applyLine_featAL_cm, hv]
    rcases List.mem_cons.1 hm with h | hm
    · subst h; rw [applyLine_featAW_cm, hv]
    rcases List.mem_cons.1 hm with h | hm
    · subst h; rw [applyLine_featBL_cm, hv]
    rcases List.mem_cons.1 hm with h | hm
    · subst h; rw [applyLine_featBW_cm, hv]
    exact absurd hm (List.not_mem_nil _)
  · intro s l rest
    rfl

/-- Witness for claim C9 at concrete inputs: a line with no separator, an
unknown key with a parsable value, a recognized numeric key with an
unparsable value, and the absent source. -/
theorem codec_tolerant_witness :
    ('=' ∉ "no separator here".data ∧
      applyLine {} "no separator here".data = {}) ∧
    ('=' ∉ "unknown".data ∧ "unknown".data ∉ knownKeys ∧
      applyLine {} ("unknown".data ++ '=' :: "3".data) = {}) ∧
    ("leadA_cm".data ∈ numericKeys ∧ parseNum "abc".data = none ∧
      applyLine {} ("leadA_cm".data ++ '=' :: "abc".data) = {}) ∧
    loadSettingsIni none =
      { width_cm := 1 / 5, featAType := "None".data, leadA_cm := 0,
        featAL_cm := 1 / 2, featAW_cm := 1 / 2, featBType := "None".data,
        leadB_cm := 0, featBL_cm := 1 / 2, featBW_cm := 1 / 2 } :=
  ⟨⟨by decide, codec_tolerant.1 {} _ (by decide)⟩,
    ⟨by decide, by decide, codec_tolerant.2.1 {} _ _ (by decide) (by decide)⟩,
    ⟨by decide, by decide, codec_tolerant.2.2.1 {} _ _ (by decide) (by decide)⟩,
    codec_tolerant.2.2.2.2⟩

/-- Claim C10: the decoder copies the value of a `featAType` line verbatim,
with no restriction to the three recognized variants, as the input
"featAType=Garbage" shows. -/
theorem decode_type_passthrough :
    (loadFromText "featAType=Garbage".data).featAType = "Garbage".data ∧
    "Garbage".data ∉
      (["None".data, "Arrow".data, "T".data] : List (List Char)) := by
  decide
